import Mathlib

/-!
Verification development for the `ark-sidecar` process: a shallow Lean
embedding of the pure core of the Rust sources (`handlers.rs`,
`connection.rs`, `commands.rs`, `types.rs`, `main.rs`) and theorems about
the claims of the specification.

The JSON data model mirrors `serde_json::Value` with objects represented
as insertion-ordered association lists (the crate enables preserved
ordering) and numbers as integers.
-/

/-- JSON values as handled by the sidecar. Objects are insertion-ordered
association lists; numbers are modelled as integers (every port or id the
sidecar inspects is integral). -/
inductive Json where
  | null
  | bool (b : Bool)
  | num (n : Int)
  | str (s : String)
  | arr (elems : List Json)
  | obj (fields : List (String × Json))

/-- Lookup of a key in a JSON object map (`serde_json::Map::get`). -/
def jlookup (fields : List (String × Json)) (key : String) : Option Json :=
  match fields with
  | [] => none
  | (k, v) :: rest => if k = key then some v else jlookup rest key

/-- Rust `Number::as_u64`: some value exactly for non-negative integers
that fit in 64 bits. -/
def num_as_u64 (n : Int) : Option Nat :=
  if 0 ≤ n ∧ n < 18446744073709551616 then some n.toNat else none

/-- Rust `u16::try_from` on a `u64` value. -/
def u16_try_from (n : Nat) : Option Nat :=
  if n ≤ 65535 then some n else none

/-- Digit run of a `u16` decimal literal: all characters must be digits
and there must be at least one. -/
def parse_u16_digits (chars : List Char) : Option Nat :=
  match chars with
  | [] => none
  | _ =>
    if chars.all (fun c => c.isDigit) then
      some (chars.foldl (fun acc c => acc * 10 + (c.toNat - 48)) 0)
    else none

/-- Rust `str::parse::<u16>`: an optional leading plus sign, then decimal
digits, value at most 65535. -/
def parse_u16 (s : String) : Option Nat :=
  let digits := match s.data with
    | '+' :: rest => rest
    | chars => chars
  match parse_u16_digits digits with
  | some v => if v ≤ 65535 then some v else none
  | none => none

/-- `parse_port_value` from `connection.rs`: accept a `u16` from a JSON
number (via `as_u64` then `u16::try_from`) or from a string (via
`str::parse::<u16>`); every other JSON type yields none. -/
def parse_port_value (value : Option Json) : Option Nat :=
  match value with
  | some (Json.num n) => (num_as_u64 n).bind u16_try_from
  | some (Json.str s) => parse_u16 s
  | _ => none

mutual

/-- `find_port` from `connection.rs`: at an object first try the `port`
key, then recurse into the values in order; at an array recurse into the
elements in order; scalars yield none. -/
def find_port : Json → Option Nat
  | Json.obj fields =>
    match parse_port_value (jlookup fields "port") with
    | some p => some p
    | none => find_port_in_fields fields
  | Json.arr elems => find_port_in_list elems
  | _ => none

/-- Recursion of `find_port` over the values of an object, in insertion
order (the `for nested in map.values()` loop). -/
def find_port_in_fields : List (String × Json) → Option Nat
  | [] => none
  | (_, v) :: rest =>
    match find_port v with
    | some p => some p
    | none => find_port_in_fields rest

/-- Recursion of `find_port` over the elements of an array, in index
order (the `for nested in values` loop). -/
def find_port_in_list : List Json → Option Nat
  | [] => none
  | v :: rest =>
    match find_port v with
    | some p => some p
    | none => find_port_in_list rest

end

/-- Third phase of `extract_comm_port`: search the whole `data` object. -/
def extract_comm_port_root (data : List (String × Json)) : Option Nat :=
  find_port (Json.obj data)

/-- Second phase of `extract_comm_port`: search `data.content` when it is
an object, falling through to the root search. -/
def extract_comm_port_content (data : List (String × Json)) : Option Nat :=
  match jlookup data "content" with
  | some (Json.obj content) =>
    match find_port (Json.obj content) with
    | some p => some p
    | none => extract_comm_port_root data
  | _ => extract_comm_port_root data

/-- `extract_comm_port` from `connection.rs`: search `data.params` when it
is an object, then `data.content` when it is an object, then `data`
itself. -/
def extract_comm_port (data : List (String × Json)) : Option Nat :=
  match jlookup data "params" with
  | some (Json.obj params) =>
    match find_port (Json.obj params) with
    | some p => some p
    | none => extract_comm_port_content data
  | _ => extract_comm_port_content data

mutual

/-- Objects of a JSON value in depth-first preorder (the node first, then
its children): used to phrase the specification's description of the
traversal. -/
def dfs_objs : Json → List (List (String × Json))
  | Json.obj fields => fields :: dfs_objs_fields fields
  | Json.arr elems => dfs_objs_list elems
  | _ => []

/-- Depth-first object lists of the values of an object, in insertion
order. -/
def dfs_objs_fields : List (String × Json) → List (List (String × Json))
  | [] => []
  | (_, v) :: rest => dfs_objs v ++ dfs_objs_fields rest

/-- Depth-first object lists of the elements of an array, in index
order. -/
def dfs_objs_list : List Json → List (List (String × Json))
  | [] => []
  | v :: rest => dfs_objs v ++ dfs_objs_list rest

end

/-- Modelled from the spec's words: a port value is "a `u16` integer or a
decimal string"; other JSON types fail silently. -/
def parse_port_spec (v : Json) : Option Nat :=
  match v with
  | Json.num n => if 0 ≤ n ∧ n ≤ 65535 then some n.toNat else none
  | Json.str s => parse_u16 s
  | _ => none

/-- The `port` key of one object node, parsed per the specification. -/
def port_at_spec (fields : List (String × Json)) : Option Nat :=
  match jlookup fields "port" with
  | some v => parse_port_spec v
  | none => none

/-- Modelled from the spec's words: the first valid port over the
depth-first preorder of object nodes, each object's `port` key inspected
before its children. -/
def find_port_spec (j : Json) : Option Nat :=
  (dfs_objs j).findSome? port_at_spec

/-- Spec-side root phase: search `data` itself. -/
def spec_phase_root (data : List (String × Json)) : Option Nat :=
  find_port_spec (Json.obj data)

/-- Spec-side second phase: `data.content` if an object, then the root. -/
def spec_phase_content (data : List (String × Json)) : Option Nat :=
  match jlookup data "content" with
  | some (Json.obj content) =>
    match find_port_spec (Json.obj content) with
    | some p => some p
    | none => spec_phase_root data
  | _ => spec_phase_root data

/-- Modelled from the spec's words: preference order
`params > content > root`, each phase a depth-first search. -/
def extract_comm_port_spec (data : List (String × Json)) : Option Nat :=
  match jlookup data "params" with
  | some (Json.obj params) =>
    match find_port_spec (Json.obj params) with
    | some p => some p
    | none => spec_phase_content data
  | _ => spec_phase_content data

/-- Comm target names from `types.rs`. -/
def LSP_COMM_TARGET : String := "positron.lsp"

/-- Plot comm target name from `types.rs`. -/
def PLOT_COMM_TARGET : String := "positron.plot"

/-- UI comm target name from `types.rs`. -/
def UI_COMM_TARGET : String := "positron.ui"

/-- Help comm target name from `types.rs`. -/
def HELP_COMM_TARGET : String := "positron.help"

/-- Variables comm target name from `types.rs`. -/
def VARIABLES_COMM_TARGET : String := "positron.variables"

/-- Data explorer comm target name from `types.rs`. -/
def DATA_EXPLORER_COMM_TARGET : String := "positron.dataExplorer"

/-- The pending-comm correlation table (`HashMap<String, String>` from
outbound msg_id to the editor-supplied request id), modelled
extensionally. -/
def Pending := String → Option String

/-- `HashMap::insert` on the pending table. -/
def pending_insert (p : Pending) (k v : String) : Pending :=
  fun q => if q = k then some v else p q

/-- `HashMap::remove` on the pending table. -/
def pending_remove (p : Pending) (k : String) : Pending :=
  fun q => if q = k then none else p q

/-- `serde_json::Map::insert` with preserved ordering: replace the value
in place when the key exists, otherwise append the new entry. -/
def map_insert (fields : List (String × Json)) (key : String) (v : Json) :
    List (String × Json) :=
  if (jlookup fields key).isSome then
    fields.map (fun kv => if kv.1 = key then (key, v) else kv)
  else fields ++ [(key, v)]

/-- `extract_request_id` from `handlers.rs`: the `id` field of the
forwarded data, as a string when it is a string, stringified when it is a
number, none otherwise. -/
def extract_request_id (data : List (String × Json)) : Option String :=
  match jlookup data "id" with
  | some (Json.str s) => some s
  | some (Json.num n) => some (toString n)
  | _ => none

/-- `attach_comm_reply_id` from `handlers.rs`: when the reply data already
carries an `id`, drop the pending entry for the parent and pass the data
through; otherwise, when the parent has a pending entry, remove it and
insert `id` into the data; otherwise pass the data through. -/
def attach_comm_reply_id (data : List (String × Json))
    (parent_msg_id : Option String) (pending : Pending) :
    List (String × Json) × Pending :=
  if (jlookup data "id").isSome then
    match parent_msg_id with
    | some p => (data, pending_remove pending p)
    | none => (data, pending)
  else
    match parent_msg_id with
    | none => (data, pending)
    | some p =>
      match pending p with
      | none => (data, pending_remove pending p)
      | some request_id => (map_insert data "id" (Json.str request_id), pending_remove pending p)

/-- Stream names of Jupyter `stream` content. -/
inductive Stdio where
  | stdout
  | stderr

/-- Media bundle items (`runtimelib::MediaType`), reduced to the shapes
the sidecar distinguishes: PNG payloads versus anything else. -/
inductive MediaType where
  | png (data : String)
  | html (data : String)
  | plain (data : String)

/-- The `transient` block of display data. -/
structure Transient where
  display_id : Option String

/-- `runtimelib::ExecutionState`; `restarting` and `dead` stand for the
variants other than the three the sidecar names (the match in
`handlers.rs` has a wildcard arm). -/
inductive ExecutionState where
  | idle
  | busy
  | starting
  | restarting
  | dead

/-- The tagged union of Jupyter message contents the multiplexer
dispatches on (`runtimelib::JupyterMessageContent`), with the content
types the watch loop drops listed explicitly. -/
inductive IopubContent where
  | displayData (media : List MediaType) (transient : Option Transient)
  | updateDisplayData (media : List MediaType) (transient : Transient)
  | streamContent (name : Stdio) (text : String)
  | commOpen (comm_id : String) (target_name : String) (data : List (String × Json))
  | commMsg (comm_id : String) (data : List (String × Json))
  | commClose (comm_id : String) (data : List (String × Json))
  | status (execution_state : ExecutionState)
  | executeResult (media : List MediaType)
  | errorOutput (ename : String) (evalue : String)
  | executeInput (code : String)
  | executeReply
  | kernelInfoReply
  | iopubWelcome
  | unknownContent (msg_type : String)

/-- An inbound Jupyter message, reduced to the parts the multiplexer
reads: the parent header's msg_id and the content. -/
structure IopubMsg where
  parent_msg_id : Option String
  content : IopubContent

/-- The line-JSON events the sidecar writes to stdout (§6 of the spec),
one constructor per `event` discriminator. -/
inductive Event where
  | lsp_port (port : Nat)
  | alive
  | error (message : String)
  | kernel_status (status : String)
  | display_data (data : String) (display_id : Option String)
  | update_display_data (data : String) (display_id : Option String)
  | comm_open (comm_id : String) (target_name : String) (data : Option (List (String × Json)))
  | ui_comm_open (comm_id : String) (target_name : String) (data : Option (List (String × Json)))
  | help_comm_open (comm_id : String) (target_name : String) (data : Option (List (String × Json)))
  | variables_comm_open (comm_id : String) (target_name : String) (data : Option (List (String × Json)))
  | data_explorer_comm_open (comm_id : String) (target_name : String) (data : Option (List (String × Json)))
  | comm_msg (comm_id : String) (data : List (String × Json))
  | comm_close (comm_id : String)
  | show_html_file (comm_id : String) (data : List (String × Json))
  | show_help (comm_id : String) (data : List (String × Json))

/-- `extract_png_data` from `handlers.rs`: the first PNG payload of the
media bundle. -/
def extract_png_data : List MediaType → Option String
  | [] => none
  | item :: rest =>
    match item with
    | MediaType.png data => some data
    | _ => extract_png_data rest

/-- `build_plot_payload` from `handlers.rs`: an event only when the media
bundle holds a PNG, with the optional display id from the transient
block. -/
def build_plot_event (is_update : Bool) (media : List MediaType)
    (transient : Option Transient) : Option Event :=
  match extract_png_data media with
  | none => none
  | some png =>
    let display_id := transient.bind (fun t => t.display_id)
    some (if is_update then Event.update_display_data png display_id
          else Event.display_data png display_id)

/-- The IOPub classification arm of the watch loop (`handlers.rs`,
`run_plot_watcher`): which event a successfully decoded IOPub message
produces, and the updated pending table. -/
def classify_iopub (msg : IopubMsg) (pending : Pending) :
    Option Event × Pending :=
  match msg.content with
  | IopubContent.displayData media transient =>
    (build_plot_event false media transient, pending)
  | IopubContent.updateDisplayData media transient =>
    (build_plot_event true media (some transient), pending)
  | IopubContent.streamContent _ _ => (none, pending)
  | IopubContent.commOpen cid target data =>
    (if target = PLOT_COMM_TARGET then some (Event.comm_open cid target (some data))
     else if target = UI_COMM_TARGET then some (Event.ui_comm_open cid target (some data))
     else if target = HELP_COMM_TARGET then some (Event.help_comm_open cid target (some data))
     else if target = VARIABLES_COMM_TARGET then some (Event.variables_comm_open cid target (some data))
     else if target = DATA_EXPLORER_COMM_TARGET then some (Event.data_explorer_comm_open cid target (some data))
     else none, pending)
  | IopubContent.commMsg cid data0 =>
    let attached := attach_comm_reply_id data0 msg.parent_msg_id pending
    let data := attached.1
    let ev :=
      match jlookup data "method" with
      | some (Json.str "show_html_file") => Event.show_html_file cid data
      | some (Json.str "show_help") => Event.show_help cid data
      | _ => Event.comm_msg cid data
    (some ev, attached.2)
  | IopubContent.commClose cid _ => (some (Event.comm_close cid), pending)
  | IopubContent.status st =>
    let s :=
      match st with
      | ExecutionState.idle => "idle"
      | ExecutionState.busy => "busy"
      | ExecutionState.starting => "starting"
      | _ => "unknown"
    (some (Event.kernel_status s), pending)
  | _ => (none, pending)

/-- The shell classification arm of the watch loop (`handlers.rs`,
`run_plot_watcher`): read errors are ignored, `comm_msg` replies get the
correlation id attached and are emitted, everything else is discarded. -/
def classify_shell (r : Except String IopubMsg) (pending : Pending) :
    Option Event × Pending :=
  match r with
  | Except.error _ => (none, pending)
  | Except.ok msg =>
    match msg.content with
    | IopubContent.commMsg cid data0 =>
      let attached := attach_comm_reply_id data0 msg.parent_msg_id pending
      (some (Event.comm_msg cid attached.1), attached.2)
    | _ => (none, pending)

/-- Whether the first character list starts with the second. -/
def chars_starts_with : List Char → List Char → Bool
  | _, [] => true
  | [], _ :: _ => false
  | a :: rest_a, b :: rest_b => a = b && chars_starts_with rest_a rest_b

/-- Whether the first character list contains the second as a contiguous
run. -/
def chars_contain : List Char → List Char → Bool
  | [], needle => chars_starts_with [] needle
  | hay@(_ :: rest), needle =>
    chars_starts_with hay needle || chars_contain rest needle

/-- Rust `str::contains` on the debug rendering of an error. -/
def str_contains (hay needle : String) : Bool :=
  chars_contain hay.data needle.data

/-- `is_comm_close_missing_data` from `handlers.rs`: the formatted error
text mentions both `comm_close` and the missing `data` field. -/
def is_comm_close_missing_data (err : String) : Bool :=
  str_contains err "comm_close" && str_contains err "missing field `data`"

/-- Messages the sidecar sends on the shell socket. -/
inductive ShellMsg where
  | commMsgOut (comm_id : String) (data : List (String × Json))
  | commOpenOut (comm_id : String) (target_name : String) (data : List (String × Json))
  | commCloseOut (comm_id : String) (data : List (String × Json))
  | executeRequest (code : String)
  | kernelInfoRequest

/-- What the watch loop's select wakes on: a stdin line (already run
through `serde_json::from_str`, hence an optional parse result), stdin
EOF or read error, an IOPub read result, or a shell read result. -/
inductive LoopInput where
  | stdinEof
  | stdinIoError (message : String)
  | stdinJson (parse_result : Option Json)
  | iopubRead (r : Except String IopubMsg)
  | shellRead (r : Except String IopubMsg)

/-- How one watch-loop iteration ends: keep looping, exit the mode
successfully, or fail the mode with an error message. -/
inductive Fate where
  | cont
  | exitOk
  | fatal (message : String)

/-- Result of one watch-loop iteration: the fate, the stdout events
emitted, the updated pending table, and the shell sends attempted. -/
structure StepOut where
  fate : Fate
  events : List Event
  pending : Pending
  sends : List ShellMsg

/-- The stdin command dispatch of the watch loop (`handlers.rs`,
`run_plot_watcher`): decode the command field and forward `comm_msg`,
`comm_open`, `comm_close` to the shell, recording a pending correlation
for a `comm_msg` with an id when the send succeeds; unknown or malformed
commands are skipped. `fresh_msg_id` is the outbound message's id and
`send_ok` whether the shell send succeeds. -/
def handle_stdin_json (pending : Pending) (j : Json) (fresh_msg_id : String)
    (send_ok : Bool) : StepOut :=
  match j with
  | Json.obj fields =>
    match jlookup fields "command" with
    | some (Json.str command) =>
      if command = "reload_log_level" then
        ⟨Fate.cont, [], pending, []⟩
      else if command = "comm_msg" then
        match jlookup fields "comm_id", jlookup fields "data" with
        | some (Json.str comm_id), some (Json.obj data) =>
          let request_id := extract_request_id data
          let sent := ShellMsg.commMsgOut comm_id data
          if send_ok then
            match request_id with
            | some rid => ⟨Fate.cont, [], pending_insert pending fresh_msg_id rid, [sent]⟩
            | none => ⟨Fate.cont, [], pending, [sent]⟩
          else ⟨Fate.cont, [], pending, [sent]⟩
        | _, _ => ⟨Fate.cont, [], pending, []⟩
      else if command = "comm_open" then
        match jlookup fields "comm_id", jlookup fields "target_name", jlookup fields "data" with
        | some (Json.str comm_id), some (Json.str target_name), some (Json.obj data) =>
          ⟨Fate.cont, [], pending, [ShellMsg.commOpenOut comm_id target_name data]⟩
        | _, _, _ => ⟨Fate.cont, [], pending, []⟩
      else if command = "comm_close" then
        match jlookup fields "comm_id" with
        | some (Json.str comm_id) =>
          let data :=
            match jlookup fields "data" with
            | some (Json.obj d) => d
            | _ => []
          ⟨Fate.cont, [], pending, [ShellMsg.commCloseOut comm_id data]⟩
        | _ => ⟨Fate.cont, [], pending, []⟩
      else ⟨Fate.cont, [], pending, []⟩
    | _ => ⟨Fate.cont, [], pending, []⟩
  | _ => ⟨Fate.cont, [], pending, []⟩

/-- One iteration of the watch-mode multiplexer loop (`handlers.rs`,
`run_plot_watcher`): stdin EOF or stdin read error end the loop cleanly;
invalid stdin JSON is skipped; IOPub read errors end the mode unless they
are the whitelisted comm_close-missing-data decode failure, which is
skipped; decoded IOPub messages are classified; shell read errors are
ignored and shell `comm_msg` replies are emitted. -/
def watch_step (pending : Pending) (input : LoopInput) (fresh_msg_id : String)
    (send_ok : Bool) : StepOut :=
  match input with
  | LoopInput.stdinEof => ⟨Fate.exitOk, [], pending, []⟩
  | LoopInput.stdinIoError _ => ⟨Fate.exitOk, [], pending, []⟩
  | LoopInput.stdinJson none => ⟨Fate.cont, [], pending, []⟩
  | LoopInput.stdinJson (some j) => handle_stdin_json pending j fresh_msg_id send_ok
  | LoopInput.iopubRead (Except.error err) =>
    if is_comm_close_missing_data err then ⟨Fate.cont, [], pending, []⟩
    else ⟨Fate.fatal err, [], pending, []⟩
  | LoopInput.iopubRead (Except.ok msg) =>
    let classified := classify_iopub msg pending
    ⟨Fate.cont, classified.1.toList, classified.2, []⟩
  | LoopInput.shellRead r =>
    let classified := classify_shell r pending
    ⟨Fate.cont, classified.1.toList, classified.2, []⟩

/-- Outcome of the Lsp mode's wait for a port. -/
inductive LspResult where
  | port (p : Nat)
  | commClosed
  | timeout
  | readErr (message : String)

/-- `wait_for_comm_port` from `connection.rs`, over the finite sequence of
IOPub reads that occur before the deadline (an exhausted sequence is the
deadline expiring): skip messages for other comm ids, fail when the
kernel closes our comm, return the first port found by
`extract_comm_port`. -/
def wait_for_comm_port (comm_id : String) :
    List (Except String IopubMsg) → LspResult
  | [] => LspResult.timeout
  | Except.error e :: _ => LspResult.readErr e
  | Except.ok msg :: rest =>
    match msg.content with
    | IopubContent.commMsg cid data =>
      if cid = comm_id then
        match extract_comm_port data with
        | some p => LspResult.port p
        | none => wait_for_comm_port comm_id rest
      else wait_for_comm_port comm_id rest
    | IopubContent.commClose cid _ =>
      if cid = comm_id then LspResult.commClosed
      else wait_for_comm_port comm_id rest
    | _ => wait_for_comm_port comm_id rest

/-- `run_lsp` from `handlers.rs` composed with the fatal-error handler of
`main`: the stdout events of the mode and the process exit code, as a
function of the comm id and the IOPub reads. -/
def run_lsp (comm_id : String) (reads : List (Except String IopubMsg)) :
    List Event × Nat :=
  match wait_for_comm_port comm_id reads with
  | LspResult.port p => ([Event.lsp_port p], 0)
  | LspResult.commClosed => ([Event.error "Comm closed before LSP port was received"], 1)
  | LspResult.timeout => ([Event.error "Timed out waiting for Ark LSP comm response"], 1)
  | LspResult.readErr e => ([Event.error e], 1)

/-- A shell read in check mode: either a decoded message (with its parent
msg_id) or a deserialization failure. -/
inductive ShellRead where
  | ok (parent_msg_id : Option String)
  | decodeError (message : String)

/-- The wait loop of `run_check` from `handlers.rs`, over the shell reads
before the deadline: true when the loop breaks (kernel considered alive),
false when the reads run out (timeout). A decode failure breaks the loop
as alive; a reply with matching parent breaks it; others are skipped. -/
def check_wait (msg_id : String) : List ShellRead → Bool
  | [] => false
  | ShellRead.decodeError _ :: _ => true
  | ShellRead.ok parent :: rest =>
    if parent = some msg_id then true else check_wait msg_id rest

/-- `run_check` from `handlers.rs` composed with the fatal-error handler
of `main`: emits `alive` and exits 0 when the wait loop breaks, else
emits an error and exits 1. -/
def run_check (msg_id : String) (reads : List ShellRead) : List Event × Nat :=
  if check_wait msg_id reads then ([Event.alive], 0)
  else ([Event.error "Timed out waiting for kernel response"], 1)

/-- The idle wait of execute mode (`wait_for_iopub_idle` from
`connection.rs`) over the IOPub messages read before the deadline: true
when a `status(idle)` with matching parent is seen. -/
def wait_for_iopub_idle (msg_id : String) : List IopubMsg → Bool
  | [] => false
  | m :: rest =>
    if m.parent_msg_id ≠ some msg_id then wait_for_iopub_idle msg_id rest
    else
      match m.content with
      | IopubContent.status ExecutionState.idle => true
      | _ => wait_for_iopub_idle msg_id rest

/-- `run_execute_request` from `handlers.rs` composed with the fatal-error
handler of `main`: stdout events and exit code. Without `wait_for_idle`
the mode emits nothing and succeeds; with it, it succeeds when the idle
status arrives before the deadline. -/
def run_execute_request (wait_for_idle : Bool) (msg_id : String)
    (reads : List IopubMsg) : List Event × Nat :=
  if wait_for_idle then
    if wait_for_iopub_idle msg_id reads then ([], 0)
    else ([Event.error "Timed out waiting for iopub idle"], 1)
  else ([], 0)

/-- The externally visible actions of a mode driver, in program order. -/
inductive ModeAction where
  | connectIopub
  | connectShell
  | sendShell (m : ShellMsg)
  | emit (e : Event)
  | awaitIopub
  | awaitShell
  | readStdinLoop
  | waitIopubWelcome

/-- action trace of `run_execute_request` (`handlers.rs`): connect both
sockets, send the execute request, and only when `wait_for_idle` is set
enter an IOPub wait. -/
def run_execute_actions (code : String) (wait_for_idle : Bool) : List ModeAction :=
  [ModeAction.connectIopub, ModeAction.connectShell,
   ModeAction.sendShell (ShellMsg.executeRequest code)] ++
  (if wait_for_idle then [ModeAction.awaitIopub] else [])

/-- action trace of `run_lsp` (`handlers.rs`): connect both sockets, send
the LSP `comm_open`, wait on IOPub, and emit `lsp_port` on success. -/
def run_lsp_actions (comm_id : String) (ip_address : String)
    (reads : List (Except String IopubMsg)) : List ModeAction :=
  [ModeAction.connectIopub, ModeAction.connectShell,
   ModeAction.sendShell (ShellMsg.commOpenOut comm_id LSP_COMM_TARGET
     [("ip_address", Json.str ip_address)]),
   ModeAction.awaitIopub] ++
  (match wait_for_comm_port comm_id reads with
   | LspResult.port p => [ModeAction.emit (Event.lsp_port p)]
   | _ => [])

/-- action trace of the setup phase of `run_plot_watcher` (`handlers.rs`):
connect both sockets, open the help, UI, variables and data explorer
comms (emitting each `*_comm_open` event), then enter the multiplexer
loop. -/
def run_plot_watcher_actions (help_id ui_id variables_id data_explorer_id : String) :
    List ModeAction :=
  [ModeAction.connectIopub, ModeAction.connectShell,
   ModeAction.sendShell (ShellMsg.commOpenOut help_id HELP_COMM_TARGET []),
   ModeAction.emit (Event.help_comm_open help_id HELP_COMM_TARGET none),
   ModeAction.sendShell (ShellMsg.commOpenOut ui_id UI_COMM_TARGET []),
   ModeAction.emit (Event.ui_comm_open ui_id UI_COMM_TARGET none),
   ModeAction.sendShell (ShellMsg.commOpenOut variables_id VARIABLES_COMM_TARGET []),
   ModeAction.emit (Event.variables_comm_open variables_id VARIABLES_COMM_TARGET none),
   ModeAction.sendShell (ShellMsg.commOpenOut data_explorer_id DATA_EXPLORER_COMM_TARGET []),
   ModeAction.emit (Event.data_explorer_comm_open data_explorer_id DATA_EXPLORER_COMM_TARGET none),
   ModeAction.readStdinLoop]

/-- action trace of `run_check` (`handlers.rs`): shell only, send the
`kernel_info_request`, wait on shell. -/
def run_check_actions : List ModeAction :=
  [ModeAction.connectShell, ModeAction.sendShell ShellMsg.kernelInfoRequest,
   ModeAction.awaitShell]

/-- Distribution of `List.findSome?` over append. -/
def find_some_append {α β : Type} (f : α → Option β) :
    ∀ l1 l2 : List α,
      (l1 ++ l2).findSome? f =
        (match l1.findSome? f with
         | some b => some b
         | none => l2.findSome? f)
  | [], l2 => by simp [List.findSome?]
  | a :: rest, l2 => by
    cases h : f a <;>
      simp [List.findSome?, h, find_some_append f rest l2]

/-- The code's port-value parser agrees with the specification's wording
(`u16` integer or decimal string, none for other types). -/
def parse_port_value_spec_eq : ∀ v : Json, parse_port_value (some v) = parse_port_spec v := by
  intro v
  cases v with
  | num n =>
    simp only [parse_port_value, parse_port_spec, num_as_u64, u16_try_from]
    by_cases h1 : 0 ≤ n ∧ n < 18446744073709551616
    · rw [if_pos h1]
      simp only [Option.some_bind]
      by_cases h2 : n.toNat ≤ 65535
      · rw [if_pos h2, if_pos (by omega)]
      · rw [if_neg h2, if_neg (by omega)]
    · rw [if_neg h1, if_neg (by omega)]
      simp
  | null => rfl
  | bool b => rfl
  | str s => rfl
  | arr elems => rfl
  | obj fields => rfl

/-- The code's inspection of the `port` key matches the specification's
per-node inspection. -/
def port_key_eq (fs : List (String × Json)) :
    parse_port_value (jlookup fs "port") = port_at_spec fs := by
  rw [port_at_spec]
  cases h : jlookup fs "port" with
  | none => rfl
  | some v => exact parse_port_value_spec_eq v

mutual

/-- The code's `find_port` equals the specification's first-port-in-DFS
description. -/
def find_port_dfs : ∀ j : Json, find_port j = find_port_spec j
  | Json.null => by simp [find_port, find_port_spec, dfs_objs, List.findSome?]
  | Json.bool b => by simp [find_port, find_port_spec, dfs_objs, List.findSome?]
  | Json.num n => by simp [find_port, find_port_spec, dfs_objs, List.findSome?]
  | Json.str s => by simp [find_port, find_port_spec, dfs_objs, List.findSome?]
  | Json.arr elems => by
    simp only [find_port, find_port_spec, dfs_objs]
    exact find_port_list_dfs elems
  | Json.obj fields => by
    simp only [find_port, find_port_spec, dfs_objs, List.findSome?]
    rw [← port_key_eq fields]
    cases h : parse_port_value (jlookup fields "port") with
    | some p => simp [h]
    | none => simpa [h] using find_port_fields_dfs fields

/-- The code's recursion over object values equals the specification's
DFS over the corresponding object nodes. -/
def find_port_fields_dfs : ∀ fs : List (String × Json),
    find_port_in_fields fs = (dfs_objs_fields fs).findSome? port_at_spec
  | [] => by simp [find_port_in_fields, dfs_objs_fields, List.findSome?]
  | (k, v) :: rest => by
    simp only [find_port_in_fields, dfs_objs_fields]
    rw [find_some_append, find_port_dfs v, find_port_spec]
    cases h : (dfs_objs v).findSome? port_at_spec <;>
      simp [h, find_port_fields_dfs rest]

/-- The code's recursion over array elements equals the specification's
DFS over the corresponding object nodes. -/
def find_port_list_dfs : ∀ xs : List Json,
    find_port_in_list xs = (dfs_objs_list xs).findSome? port_at_spec
  | [] => by simp [find_port_in_list, dfs_objs_list, List.findSome?]
  | v :: rest => by
    simp only [find_port_in_list, dfs_objs_list]
    rw [find_some_append, find_port_dfs v, find_port_spec]
    cases h : (dfs_objs v).findSome? port_at_spec <;>
      simp [h, find_port_list_dfs rest]

end

/-- C2: the comm-port locator searches `data.params` (if an object), then
`data.content` (if an object), then `data` itself; within each phase it
performs a depth-first traversal that at each object inspects the `port`
key first (accepting a `u16` integer or decimal string, none for other
value types), then recurses into object values in insertion order and
array elements in index order, returning the first `u16` so found, or
none. Stated as: the code's parser, `find_port`, and `extract_comm_port`
coincide with the definitions written from the specification's words. -/
theorem C2_comm_port_locator :
    (∀ v : Json, parse_port_value (some v) = parse_port_spec v) ∧
    (∀ j : Json, find_port j = find_port_spec j) ∧
    (∀ data : List (String × Json), extract_comm_port data = extract_comm_port_spec data) := by
  refine ⟨parse_port_value_spec_eq, find_port_dfs, ?_⟩
  intro data
  simp only [extract_comm_port, extract_comm_port_content, extract_comm_port_root,
    extract_comm_port_spec, spec_phase_content, spec_phase_root, find_port_dfs]

/-- C3: in watch mode every IOPub `status` message yields a
`kernel_status` event whose status is one of `idle`, `busy`, `starting`,
`unknown` (the last for any other execution state), and the content types
outside the §4.6 table (execute results, errors, execute input, shell
reply types, the welcome, and unknown types) yield no event. -/
theorem C3_iopub_status_classification :
    (∀ (parent : Option String) (pending : Pending) (st : ExecutionState),
      ∃ s, classify_iopub ⟨parent, IopubContent.status st⟩ pending
            = (some (Event.kernel_status s), pending) ∧
          (s = "idle" ∨ s = "busy" ∨ s = "starting" ∨ s = "unknown")) ∧
    (∀ (parent : Option String) (pending : Pending) (media : List MediaType),
      classify_iopub ⟨parent, IopubContent.executeResult media⟩ pending = (none, pending)) ∧
    (∀ (parent : Option String) (pending : Pending) (ename evalue : String),
      classify_iopub ⟨parent, IopubContent.errorOutput ename evalue⟩ pending = (none, pending)) ∧
    (∀ (parent : Option String) (pending : Pending) (code : String),
      classify_iopub ⟨parent, IopubContent.executeInput code⟩ pending = (none, pending)) ∧
    (∀ (parent : Option String) (pending : Pending),
      classify_iopub ⟨parent, IopubContent.executeReply⟩ pending = (none, pending)) ∧
    (∀ (parent : Option String) (pending : Pending),
      classify_iopub ⟨parent, IopubContent.kernelInfoReply⟩ pending = (none, pending)) ∧
    (∀ (parent : Option String) (pending : Pending),
      classify_iopub ⟨parent, IopubContent.iopubWelcome⟩ pending = (none, pending)) ∧
    (∀ (parent : Option String) (pending : Pending) (t : String),
      classify_iopub ⟨parent, IopubContent.unknownContent t⟩ pending = (none, pending)) := by
  refine ⟨?_, fun _ _ _ => rfl, fun _ _ _ _ => rfl, fun _ _ _ => rfl,
    fun _ _ => rfl, fun _ _ => rfl, fun _ _ => rfl, fun _ _ _ => rfl⟩
  intro parent pending st
  cases st with
  | idle => exact ⟨"idle", rfl, Or.inl rfl⟩
  | busy => exact ⟨"busy", rfl, Or.inr (Or.inl rfl)⟩
  | starting => exact ⟨"starting", rfl, Or.inr (Or.inr (Or.inl rfl))⟩
  | restarting => exact ⟨"unknown", rfl, Or.inr (Or.inr (Or.inr rfl))⟩
  | dead => exact ⟨"unknown", rfl, Or.inr (Or.inr (Or.inr rfl))⟩

/-- C10: when an inbound comm_msg's data lacks an `id` and either the
parent header is absent or its msg_id has no pending entry,
`attach_comm_reply_id` returns the data unchanged and the pending table
unchanged, and the emitted `comm_msg` event carries exactly the kernel's
data. -/
theorem C10_correlator_frame (data : List (String × Json)) (pending : Pending)
    (cid : String) (h : jlookup data "id" = none) :
    attach_comm_reply_id data none pending = (data, pending) ∧
    (∀ p, pending p = none →
      attach_comm_reply_id data (some p) pending = (data, pending)) ∧
    (jlookup data "method" = none →
      classify_iopub ⟨none, IopubContent.commMsg cid data⟩ pending
        = (some (Event.comm_msg cid data), pending)) := by
  constructor
  · simp [attach_comm_reply_id, h]
  constructor
  · intro p hp
    simp only [attach_comm_reply_id, h, Option.isSome_none, Bool.false_eq_true,
      if_false, hp]
    refine Prod.ext rfl ?_
    funext q
    simp only [pending_remove]
    by_cases hq : q = p
    · subst hq; simpa using hp.symm
    · rw [if_neg hq]
  · intro hm
    simp [classify_iopub, attach_comm_reply_id, h, hm]

/-- C1: forwarding an editor comm_msg whose data carries `id = x` records
a pending entry keyed by the outbound msg_id; for an inbound comm_msg
reply whose parent msg_id matches, when the reply's data lacks `id` the
entry is removed and `id : x` is inserted, when the reply's data already
has an `id` the entry is removed and the data passes through unchanged;
in both cases the pending table no longer contains the entry. -/
theorem C1_request_id_correlator (pending : Pending) (cid msgId x : String)
    (data_out reply : List (String × Json)) :
    (extract_request_id data_out = some x →
      (handle_stdin_json pending
        (Json.obj [("command", Json.str "comm_msg"), ("comm_id", Json.str cid),
          ("data", Json.obj data_out)]) msgId true).pending
        = pending_insert pending msgId x ∧
      (handle_stdin_json pending
        (Json.obj [("command", Json.str "comm_msg"), ("comm_id", Json.str cid),
          ("data", Json.obj data_out)]) msgId true).sends
        = [ShellMsg.commMsgOut cid data_out]) ∧
    (jlookup reply "id" = none →
      attach_comm_reply_id reply (some msgId) (pending_insert pending msgId x)
        = (map_insert reply "id" (Json.str x),
           pending_remove (pending_insert pending msgId x) msgId) ∧
      (attach_comm_reply_id reply (some msgId)
        (pending_insert pending msgId x)).2 msgId = none) ∧
    ((jlookup reply "id").isSome = true →
      (attach_comm_reply_id reply (some msgId)
        (pending_insert pending msgId x)).1 = reply ∧
      (attach_comm_reply_id reply (some msgId)
        (pending_insert pending msgId x)).2 msgId = none) ∧
    (jlookup reply "id" = none →
      classify_shell (Except.ok ⟨some msgId, IopubContent.commMsg cid reply⟩)
          (pending_insert pending msgId x)
        = (some (Event.comm_msg cid (map_insert reply "id" (Json.str x))),
           pending_remove (pending_insert pending msgId x) msgId)) := by
  refine ⟨?_, ?_, ?_, ?_⟩
  · intro h
    constructor <;> simp [handle_stdin_json, jlookup, h]
  · intro h
    constructor
    · simp [attach_comm_reply_id, h, pending_insert]
    · simp [attach_comm_reply_id, h, pending_insert, pending_remove]
  · intro h
    constructor
    · simp [attach_comm_reply_id, h]
    · simp [attach_comm_reply_id, h, pending_remove]
  · intro h
    simp [classify_shell, attach_comm_reply_id, h, pending_insert]

/-- C1 witness: a concrete forwarded request with id `r7` and concrete
replies with and without an `id`, evaluated through the correlator. -/
theorem C1_request_id_correlator_witness :
    extract_request_id [("id", Json.str "r7"), ("method", Json.str "list")] = some "r7" ∧
    (handle_stdin_json (fun _ => none)
      (Json.obj [("command", Json.str "comm_msg"), ("comm_id", Json.str "C1"),
        ("data", Json.obj [("id", Json.str "r7"), ("method", Json.str "list")])])
      "m1" true).pending
      = pending_insert (fun _ => none) "m1" "r7" ∧
    attach_comm_reply_id [("result", Json.arr [])] (some "m1")
        (pending_insert (fun _ => none) "m1" "r7")
      = (map_insert [("result", Json.arr [])] "id" (Json.str "r7"),
         pending_remove (pending_insert (fun _ => none) "m1" "r7") "m1") ∧
    (attach_comm_reply_id [("result", Json.arr [])] (some "m1")
        (pending_insert (fun _ => none) "m1" "r7")).2 "m1" = none ∧
    (attach_comm_reply_id [("id", Json.str "other")] (some "m1")
        (pending_insert (fun _ => none) "m1" "r7")).1 = [("id", Json.str "other")] ∧
    (attach_comm_reply_id [("id", Json.str "other")] (some "m1")
        (pending_insert (fun _ => none) "m1" "r7")).2 "m1" = none := by
  have h1 := C1_request_id_correlator (fun _ => none) "C1" "m1" "r7"
    [("id", Json.str "r7"), ("method", Json.str "list")] [("result", Json.arr [])]
  have h2 := C1_request_id_correlator (fun _ => none) "C1" "m1" "r7"
    [("id", Json.str "r7"), ("method", Json.str "list")] [("id", Json.str "other")]
  have hx : extract_request_id [("id", Json.str "r7"), ("method", Json.str "list")]
      = some "r7" := by simp [extract_request_id, jlookup]
  have hnone : jlookup [("result", Json.arr [])] "id" = none := by simp [jlookup]
  have hsome : (jlookup [("id", Json.str "other")] "id").isSome = true := by
    simp [jlookup]
  exact ⟨hx, (h1.1 hx).1, (h1.2.1 hnone).1, (h1.2.1 hnone).2,
    (h2.2.2.1 hsome).1, (h2.2.2.1 hsome).2⟩

/-- C4: in check mode a deserialization error on a shell read before the
deadline is treated as the kernel having responded: the mode emits
`alive` and exits with code 0. -/
theorem C4_check_decode_error_is_alive (msg_id e : String)
    (reads : List ShellRead) (h : ShellRead.decodeError e ∈ reads) :
    run_check msg_id reads = ([Event.alive], 0) := by
  have key : ∀ rs : List ShellRead,
      ShellRead.decodeError e ∈ rs → check_wait msg_id rs = true := by
    intro rs
    induction rs with
    | nil => intro h'; cases h'
    | cons r rest ih =>
      intro h'
      cases r with
      | decodeError m => simp [check_wait]
      | ok parent =>
        by_cases hp : parent = some msg_id
        · simp [check_wait, hp]
        · rcases List.mem_cons.mp h' with h2 | h2
          · cases h2
          · simp [check_wait, hp, ih h2]
  rw [run_check, if_pos (key reads h)]

/-- C4 witness: a non-matching reply followed by a decode failure yields
`alive` with exit code 0. -/
theorem C4_check_decode_error_is_alive_witness :
    run_check "m1" [ShellRead.ok (some "other"), ShellRead.decodeError "bad"]
      = ([Event.alive], 0) := by
  exact C4_check_decode_error_is_alive "m1" "bad" _ (by simp)

/-- Number of `lsp_port` events in an event list. -/
def count_lsp_port (events : List Event) : Nat :=
  (events.filter (fun e =>
    match e with
    | Event.lsp_port _ => true
    | _ => false)).length

/-- C8: Lsp mode emits exactly one `lsp_port` event on success and zero
otherwise; the wait skips comm messages for other comm ids, fails with
the comm-closed error when the kernel closes our comm before a port was
received, and times out when the reads run out; the corresponding error
events exit with code 1. -/
theorem C8_lsp_port_events (comm_id : String)
    (reads : List (Except String IopubMsg)) :
    (∀ p, wait_for_comm_port comm_id reads = LspResult.port p →
      run_lsp comm_id reads = ([Event.lsp_port p], 0) ∧
      count_lsp_port (run_lsp comm_id reads).1 = 1) ∧
    ((∀ p, wait_for_comm_port comm_id reads ≠ LspResult.port p) →
      count_lsp_port (run_lsp comm_id reads).1 = 0 ∧
      (run_lsp comm_id reads).2 = 1) ∧
    (∀ parent cid data rest, cid ≠ comm_id →
      wait_for_comm_port comm_id
          (Except.ok ⟨parent, IopubContent.commMsg cid data⟩ :: rest)
        = wait_for_comm_port comm_id rest) ∧
    (∀ parent dcc rest,
      wait_for_comm_port comm_id
          (Except.ok ⟨parent, IopubContent.commClose comm_id dcc⟩ :: rest)
        = LspResult.commClosed) ∧
    (wait_for_comm_port comm_id reads = LspResult.commClosed →
      run_lsp comm_id reads
        = ([Event.error "Comm closed before LSP port was received"], 1)) ∧
    (wait_for_comm_port comm_id [] = LspResult.timeout) ∧
    (wait_for_comm_port comm_id reads = LspResult.timeout →
      run_lsp comm_id reads
        = ([Event.error "Timed out waiting for Ark LSP comm response"], 1)) := by
  refine ⟨?_, ?_, ?_, ?_, ?_, ?_, ?_⟩
  · intro p hp
    simp [run_lsp, hp, count_lsp_port]
  · intro hne
    cases hw : wait_for_comm_port comm_id reads with
    | port p => exact absurd hw (hne p)
    | commClosed => simp [run_lsp, hw, count_lsp_port]
    | timeout => simp [run_lsp, hw, count_lsp_port]
    | readErr t => simp [run_lsp, hw, count_lsp_port]
  · intro parent cid data rest hne
    simp [wait_for_comm_port, hne]
  · intro parent dcc rest
    simp [wait_for_comm_port]
  · intro hw
    simp [run_lsp, hw]
  · simp [wait_for_comm_port]
  · intro hw
    simp [run_lsp, hw]

/-- C8 witness: a kernel reply carrying `params.port = 8787` for our comm
id yields exactly the `lsp_port 8787` event with exit code 0. -/
theorem C8_lsp_port_events_witness :
    wait_for_comm_port "c"
        [Except.ok ⟨none, IopubContent.commMsg "c"
          [("params", Json.obj [("port", Json.num 8787)])]⟩]
      = LspResult.port 8787 ∧
    run_lsp "c"
        [Except.ok ⟨none, IopubContent.commMsg "c"
          [("params", Json.obj [("port", Json.num 8787)])]⟩]
      = ([Event.lsp_port 8787], 0) := by
  have hw : wait_for_comm_port "c"
      [Except.ok ⟨none, IopubContent.commMsg "c"
        [("params", Json.obj [("port", Json.num 8787)])]⟩]
      = LspResult.port 8787 := by
    simp [wait_for_comm_port, extract_comm_port, extract_comm_port_content,
      extract_comm_port_root, find_port, jlookup, parse_port_value,
      num_as_u64, u16_try_from]
  exact ⟨hw, ((C8_lsp_port_events "c" _).1 8787 hw).1⟩

/-- C9: no run-mode waits for an `iopub_welcome`: each mode's first
outbound shell message follows only the socket connects, with no IOPub
receive before it, and the Lsp wait succeeds on a read stream that never
contains a welcome message. -/
theorem C9_no_welcome_wait :
    (∀ code w, ModeAction.waitIopubWelcome ∉ run_execute_actions code w ∧
      (run_execute_actions code w).take 3
        = [ModeAction.connectIopub, ModeAction.connectShell,
           ModeAction.sendShell (ShellMsg.executeRequest code)]) ∧
    (∀ cid ip reads, ModeAction.waitIopubWelcome ∉ run_lsp_actions cid ip reads ∧
      (run_lsp_actions cid ip reads).take 3
        = [ModeAction.connectIopub, ModeAction.connectShell,
           ModeAction.sendShell (ShellMsg.commOpenOut cid LSP_COMM_TARGET
             [("ip_address", Json.str ip)])]) ∧
    (∀ h u v d, ModeAction.waitIopubWelcome ∉ run_plot_watcher_actions h u v d ∧
      (run_plot_watcher_actions h u v d).take 3
        = [ModeAction.connectIopub, ModeAction.connectShell,
           ModeAction.sendShell (ShellMsg.commOpenOut h HELP_COMM_TARGET [])]) ∧
    (ModeAction.waitIopubWelcome ∉ run_check_actions ∧
      run_check_actions.take 2
        = [ModeAction.connectShell, ModeAction.sendShell ShellMsg.kernelInfoRequest]) ∧
    run_lsp "c" [Except.ok ⟨none, IopubContent.commMsg "c"
        [("params", Json.obj [("port", Json.num 8787)])]⟩]
      = ([Event.lsp_port 8787], 0) := by
  refine ⟨?_, ?_, ?_, ⟨by simp [run_check_actions], rfl⟩, ?_⟩
  · intro code w
    cases w <;> simp [run_execute_actions]
  · intro cid ip reads
    constructor
    · cases hw : wait_for_comm_port cid reads <;> simp [run_lsp_actions, hw]
    · cases hw : wait_for_comm_port cid reads <;> simp [run_lsp_actions, hw]
  · intro h u v d
    exact ⟨by simp [run_plot_watcher_actions], rfl⟩
  · simp [run_lsp, wait_for_comm_port, extract_comm_port,
      extract_comm_port_content, extract_comm_port_root, find_port, jlookup,
      parse_port_value, num_as_u64, u16_try_from]

/-- C5 counterexample: with `wait_for_idle` unset, execute mode still
opens the IOPub connection, so "opens IOPub iff wait_for_idle" fails at
`--code 1+1` without `--wait-for-idle`. -/
theorem C5_iopub_always_opened_counterexample :
    ¬ ((ModeAction.connectIopub ∈ run_execute_actions "1+1" false) ↔ false = true) := by
  intro hiff
  have hin : ModeAction.connectIopub ∈ run_execute_actions "1+1" false := by
    simp [run_execute_actions]
  exact absurd (hiff.mp hin) (by simp)

/-- C5 amended: execute mode opens the IOPub connection unconditionally;
when `wait_for_idle` is false it sends exactly one `execute_request` on
shell, does not wait on IOPub, emits no stdout events, and exits
successfully. -/
theorem C5_execute_no_wait_amended (code msg_id : String) (reads : List IopubMsg) :
    run_execute_actions code false
      = [ModeAction.connectIopub, ModeAction.connectShell,
         ModeAction.sendShell (ShellMsg.executeRequest code)] ∧
    ((run_execute_actions code false).filter (fun a =>
        match a with
        | ModeAction.sendShell _ => true
        | _ => false)).length = 1 ∧
    (∀ e, ModeAction.emit e ∉ run_execute_actions code false) ∧
    ModeAction.awaitIopub ∉ run_execute_actions code false ∧
    run_execute_request false msg_id reads = ([], 0) ∧
    ModeAction.connectIopub ∈ run_execute_actions code true ∧
    ModeAction.connectIopub ∈ run_execute_actions code false := by
  refine ⟨by simp [run_execute_actions], by simp [run_execute_actions], ?_, ?_, rfl, ?_, ?_⟩
  · intro e; simp [run_execute_actions]
  · simp [run_execute_actions]
  · simp [run_execute_actions]
  · simp [run_execute_actions]

/-- C6 counterexample: the whitelisted decode failure produces no event
at all, while an actual comm_close with empty data produces a
`comm_close` event, so the failed message is not treated as an
empty-data comm_close. -/
theorem C6_skipped_not_comm_close_counterexample :
    (watch_step (fun _ => none)
      (LoopInput.iopubRead (Except.error
        "comm_close content error: missing field `data`")) "f1" true).events = [] ∧
    (watch_step (fun _ => none)
      (LoopInput.iopubRead (Except.error
        "comm_close content error: missing field `data`")) "f1" true).fate = Fate.cont ∧
    (watch_step (fun _ => none)
      (LoopInput.iopubRead (Except.ok ⟨none, IopubContent.commClose "c1" []⟩))
      "f1" true).events = [Event.comm_close "c1"] ∧
    ([] : List Event) ≠ [Event.comm_close "c1"] := by
  have hx : is_comm_close_missing_data
      "comm_close content error: missing field `data`" = true := by rfl
  refine ⟨by simp [watch_step, hx], by simp [watch_step, hx],
    by simp [watch_step, classify_iopub], by simp⟩

/-- C6 amended: an IOPub decode failure recognized as a comm_close
missing its `data` field is downgraded to a log entry and the message is
skipped without emitting any event, the watch loop continuing; every
other decode failure on IOPub is fatal to the mode. -/
theorem C6_decode_failure_amended (pending : Pending) (t fresh : String)
    (ok_ : Bool) :
    (is_comm_close_missing_data t = true →
      watch_step pending (LoopInput.iopubRead (Except.error t)) fresh ok_
        = ⟨Fate.cont, [], pending, []⟩) ∧
    (is_comm_close_missing_data t = false →
      watch_step pending (LoopInput.iopubRead (Except.error t)) fresh ok_
        = ⟨Fate.fatal t, [], pending, []⟩) := by
  constructor <;> intro h <;> simp [watch_step, h]

/-- C6 amended witness: a comm_close-missing-data error is skipped, an
unrelated error is fatal. -/
theorem C6_decode_failure_amended_witness :
    watch_step (fun _ => none) (LoopInput.iopubRead (Except.error
      "comm_close: missing field `data`")) "f1" true
      = ⟨Fate.cont, [], (fun _ => none), []⟩ ∧
    watch_step (fun _ => none) (LoopInput.iopubRead (Except.error "boom")) "f1" true
      = ⟨Fate.fatal "boom", [], (fun _ => none), []⟩ := by
  have h1 : is_comm_close_missing_data "comm_close: missing field `data`" = true := by
    rfl
  have h2 : is_comm_close_missing_data "boom" = false := by rfl
  exact ⟨(C6_decode_failure_amended (fun _ => none) _ "f1" true).1 h1,
    (C6_decode_failure_amended (fun _ => none) _ "f1" true).2 h2⟩

/-- C7 counterexample: inside the watch loop a shell send failure of an
editor-forwarded comm_msg and a shell read error both leave the loop
running with no error event, so "every socket send or receive error is
fatal to the enclosing mode" fails there. -/
theorem C7_watch_socket_errors_counterexample :
    (watch_step (fun _ => none)
      (LoopInput.stdinJson (some (Json.obj
        [("command", Json.str "comm_msg"), ("comm_id", Json.str "c1"),
         ("data", Json.obj [("id", Json.str "r1")])])))
      "m1" false).fate = Fate.cont ∧
    (watch_step (fun _ => none)
      (LoopInput.stdinJson (some (Json.obj
        [("command", Json.str "comm_msg"), ("comm_id", Json.str "c1"),
         ("data", Json.obj [("id", Json.str "r1")])])))
      "m1" false).events = [] ∧
    (watch_step (fun _ => none) (LoopInput.shellRead (Except.error "recv failed"))
      "m1" true).fate = Fate.cont ∧
    (watch_step (fun _ => none) (LoopInput.shellRead (Except.error "recv failed"))
      "m1" true).events = [] ∧
    Fate.cont ≠ Fate.exitOk ∧ (∀ m, Fate.cont ≠ Fate.fatal m) := by
  refine ⟨by simp [watch_step, handle_stdin_json, jlookup],
    by simp [watch_step, handle_stdin_json, jlookup],
    by simp [watch_step, classify_shell],
    by simp [watch_step, classify_shell], by simp, by intro m; simp⟩

/-- C7 amended: IOPub read errors other than the whitelisted comm_close
decode failure are fatal to the watch loop, and in the lsp wait any read
error yields an error event and exit code 1; but inside the watch loop a
failed shell send of an editor-forwarded message is attempted once,
logged and skipped, and shell read errors are ignored; no socket
operation is retried. -/
theorem C7_fatal_socket_errors_amended (pending : Pending)
    (t fresh cid : String) (data : List (String × Json)) (ok_ : Bool)
    (reads : List (Except String IopubMsg)) :
    (is_comm_close_missing_data t = false →
      (watch_step pending (LoopInput.iopubRead (Except.error t)) fresh ok_).fate
        = Fate.fatal t) ∧
    (wait_for_comm_port cid (Except.error t :: reads) = LspResult.readErr t ∧
      run_lsp cid (Except.error t :: reads) = ([Event.error t], 1)) ∧
    (watch_step pending (LoopInput.shellRead (Except.error t)) fresh ok_
      = ⟨Fate.cont, [], pending, []⟩) ∧
    (watch_step pending (LoopInput.stdinJson (some (Json.obj
        [("command", Json.str "comm_msg"), ("comm_id", Json.str cid),
         ("data", Json.obj data)]))) fresh false
      = ⟨Fate.cont, [], pending, [ShellMsg.commMsgOut cid data]⟩) := by
  refine ⟨?_, ⟨by simp [wait_for_comm_port], by simp [run_lsp, wait_for_comm_port]⟩,
    by simp [watch_step, classify_shell], ?_⟩
  · intro h
    simp [watch_step, h]
  · simp [watch_step, handle_stdin_json, jlookup]

/-- C7 amended witness: a concrete non-whitelisted IOPub error is fatal
while the concrete watch-loop shell failures are not. -/
theorem C7_fatal_socket_errors_amended_witness :
    (watch_step (fun _ => none) (LoopInput.iopubRead (Except.error "boom"))
      "m1" true).fate = Fate.fatal "boom" ∧
    run_lsp "c" [Except.error "boom"] = ([Event.error "boom"], 1) ∧
    watch_step (fun _ => none) (LoopInput.shellRead (Except.error "boom")) "m1" true
      = ⟨Fate.cont, [], (fun _ => none), []⟩ := by
  have h := C7_fatal_socket_errors_amended (fun _ => none) "boom" "m1" "c"
    [("id", Json.str "r1")] true []
  exact ⟨h.1 (by rfl), h.2.1.2, h.2.2.1⟩

/-- C10 witness: a concrete id-less reply with no parent and with an
unmatched parent passes through unchanged, with the pending table
untouched. -/
theorem C10_correlator_frame_witness :
    attach_comm_reply_id [("result", Json.str "ok")] none (fun _ => none)
      = ([("result", Json.str "ok")], (fun _ => none)) ∧
    attach_comm_reply_id [("result", Json.str "ok")] (some "mX") (fun _ => none)
      = ([("result", Json.str "ok")], (fun _ => none)) ∧
    classify_iopub ⟨none, IopubContent.commMsg "c9" [("result", Json.str "ok")]⟩
        (fun _ => none)
      = (some (Event.comm_msg "c9" [("result", Json.str "ok")]), (fun _ => none)) := by
  have h := C10_correlator_frame [("result", Json.str "ok")] (fun _ => none) "c9"
    (by simp [jlookup])
  exact ⟨h.1, h.2.1 "mX" rfl, h.2.2 (by simp [jlookup])⟩
